import Mathlib

/-!
Shallow embedding of the BIAnalysis bioimpedance pipeline
(`src/BIAnalsysis.py` and `main.py`) and proofs about it.

Modelling conventions:
- Python floats are modelled as real numbers (`ℝ`); where NaN / non-finite
  propagation of numpy is essential (resistance extraction), values are
  `Option ℝ` with `none` standing for a NaN or non-finite float.
- `float(s)` / `int(s)` are abstracted as oracles `String → Option ℝ` /
  `String → Option ℤ`, `none` meaning Python raises `ValueError`.
- Python exceptions surface as `Except PyErr`; the source defines no
  exception classes of its own, so only the built-ins appear.
- `scipy.optimize.leastsq` is an external library call; it is abstracted as
  a parameter returning a solution point together with the integer status
  flag `ier`, exactly as the source unpacks it.
- Strings are split with an executable re-implementation of Python
  `str.split(sep)` semantics (empty fields kept), since `String.splitOn`
  does not reduce in the kernel.
-/

/-- Python `str.split` core on character lists: split at every character
satisfying `p`, keeping empty fields (semantics of `s.split(sep)`). -/
def splitP (p : Char → Bool) : List Char → List (List Char)
  | [] => [[]]
  | c :: cs =>
      let r := splitP p cs
      if p c then [] :: r
      else (c :: r.headD []) :: r.tail

/-- Python `s.split(sep)` for a single-character separator, e.g. the
`.split(' ')`, `.split(',')` and `.split('.')` calls of the source. -/
def pySplit (sep : Char) (s : String) : List String :=
  (splitP (fun c => c = sep) s.toList).map (fun l => String.mk l)

/-- Whitespace tokenisation in the spec's sense ("whitespace-separated
tokens", Python `s.split()` with no argument): split on any whitespace
and drop empty fields. Used only to compare the spec's wording with the
source's `split(' ')`. -/
def wsTokens (s : String) : List String :=
  ((splitP Char.isWhitespace s.toList).filter (fun l => !l.isEmpty)).map
    (fun l => String.mk l)

/-- Python built-in exceptions that the source can raise. The source
defines no exception classes of its own. -/
inductive PyErr
  | indexError
  | valueError
  deriving DecidableEq

/-- Python list indexing `l[i]` for a non-negative index: `IndexError`
when out of range. -/
def pyGet (l : List α) (i : ℕ) : Except PyErr α :=
  match l.get? i with
  | some a => .ok a
  | none => .error .indexError

/-- Python `float(s)` through a parsing oracle; `none` models `ValueError`. -/
def pyFloatE (fo : String → Option ℝ) (s : String) : Except PyErr ℝ :=
  match fo s with
  | some v => .ok v
  | none => .error .valueError

/-- Python `int(s)` through a parsing oracle; `none` models `ValueError`. -/
def pyIntE (zo : String → Option ℤ) (s : String) : Except PyErr ℤ :=
  match zo s with
  | some v => .ok v
  | none => .error .valueError

/-- Subject metadata, as read in `BIAnalysis.__init__`. -/
structure Subject where
  height : ℝ
  weight : ℝ
  age : ℤ
  sex : String

/-- The metadata part of `BIAnalysis.__init__`:
`height = float(data[2].split(' ')[1])`, `weight = float(data[3].split(' ')[1])`,
`age = int(data[4].split(' ')[1])`, `sex = data[5].split(' ')[1]`,
with Python evaluation order (indexing first, then conversion). -/
def parseSubject (fo : String → Option ℝ) (zo : String → Option ℤ)
    (data : List String) : Except PyErr Subject := do
  let l2 ← pyGet data 2
  let t2 ← pyGet (pySplit ' ' l2) 1
  let height ← pyFloatE fo t2
  let l3 ← pyGet data 3
  let t3 ← pyGet (pySplit ' ' l3) 1
  let weight ← pyFloatE fo t3
  let l4 ← pyGet data 4
  let t4 ← pyGet (pySplit ' ' l4) 1
  let age ← pyIntE zo t4
  let l5 ← pyGet data 5
  let sex ← pyGet (pySplit ' ' l5) 1
  return { height := height, weight := weight, age := age, sex := sex }

/-- `calculate_bmi`: `self.weight/((self.height/100) ** 2)`. -/
noncomputable def calculate_bmi (height weight : ℝ) : ℝ :=
  weight / ((height / 100) ^ 2)

/-- Python slice `data[13:-1]`: elements at indices `13 .. len-2`. -/
def pySlice13ToLast (l : List α) : List α :=
  (l.drop 13).take (l.length - 14)

/-- `extract_impedance_data`: `[line.split(',') for line in data[13:-1]]`. -/
def extract_impedance_data (data : List String) : List (List String) :=
  (pySlice13ToLast data).map (fun line => pySplit ',' line)

/-- `get_freq_react_data`: for each sample row append
`float(sample[1])` to `freq` and `float(sample[2])` to `react`,
in that evaluation order. -/
def get_freq_react_data (fo : String → Option ℝ) :
    List (List String) → Except PyErr (List ℝ × List ℝ)
  | [] => .ok ([], [])
  | sample :: rest => do
    let s1 ← pyGet sample 1
    let f ← pyFloatE fo s1
    let s2 ← pyGet sample 2
    let x ← pyFloatE fo s2
    let p ← get_freq_react_data fo rest
    return (f :: p.1, x :: p.2)

/-- The parsing phase of `BIAnalysis.__init__`: subject metadata, then
`extract_impedance_data`, then `get_freq_react_data`. -/
def parse_init (fo : String → Option ℝ) (zo : String → Option ℤ)
    (data : List String) : Except PyErr (Subject × List ℝ × List ℝ) := do
  let subj ← parseSubject fo zo data
  let p ← get_freq_react_data fo (extract_impedance_data data)
  return (subj, p.1, p.2)

/-- `np.mean` of a list of reals. -/
noncomputable def mean (l : List ℝ) : ℝ := l.sum / l.length

/-- `calc_R`: elementwise `np.sqrt((freq-xc)**2 + (react-yc)**2)`,
the Euclidean distances from the candidate center to the samples. -/
noncomputable def calc_R (freq react : List ℝ) (xc yc : ℝ) : List ℝ :=
  List.zipWith (fun f x => Real.sqrt ((f - xc) ^ 2 + (x - yc) ^ 2)) freq react

/-- `f_2`: the residual vector `Ri - Ri.mean()` with `Ri = calc_R(*c)`. -/
noncomputable def f_2 (freq react : List ℝ) (c : ℝ × ℝ) : List ℝ :=
  (calc_R freq react c.1 c.2).map (fun d => d - mean (calc_R freq react c.1 c.2))

/-- `calculate_radius`, with `optimize.leastsq` abstracted as the `leastsq`
parameter (residual function and initial guess in, solution point and the
integer status flag `ier` out, exactly as the source unpacks the pair):
`center, ier = optimize.leastsq(self.f_2, (np.mean(freq), 0.0))`;
`R = np.mean(calc_R(*center))`; `return R, center`. -/
noncomputable def calculate_radius
    (leastsq : ((ℝ × ℝ) → List ℝ) → (ℝ × ℝ) → (ℝ × ℝ) × ℤ)
    (freq react : List ℝ) : ℝ × (ℝ × ℝ) :=
  let x_m := mean freq
  let center_estimate := (x_m, (0 : ℝ))
  let ci := leastsq (f_2 freq react) center_estimate
  let center := ci.1
  let Ri := calc_R freq react center.1 center.2
  let R := mean Ri
  (R, center)

/-- `calculate_ffm`: the per-sample regression values accumulated by the
loop body (`FFM_i = 0.7374*height**2/freq[i]; += 0.1763*weight;
-= 0.1773*age; += 0.1198*react[i]; -= 2.4658`), then `np.mean(FFM)`.
The loop runs `for i in range(len(freq))` with `freq[i]`, `react[i]`;
`zipWith` coincides with it when the two lists have equal length, which
the parser guarantees. -/
noncomputable def calculate_ffm (height weight : ℝ) (age : ℤ)
    (freq react : List ℝ) : ℝ :=
  mean (List.zipWith
    (fun f x =>
      0.7374 * height ^ 2 / f + 0.1763 * weight - 0.1773 * (age : ℝ)
        + 0.1198 * x - 2.4658)
    freq react)

/-- Numpy float addition on possibly-NaN values (`none` = NaN/non-finite). -/
noncomputable def nadd : Option ℝ → Option ℝ → Option ℝ
  | some x, some y => some (x + y)
  | _, _ => none

/-- Numpy float subtraction on possibly-NaN values. -/
noncomputable def nsub : Option ℝ → Option ℝ → Option ℝ
  | some x, some y => some (x - y)
  | _, _ => none

/-- Numpy float multiplication on possibly-NaN values. -/
noncomputable def nmul : Option ℝ → Option ℝ → Option ℝ
  | some x, some y => some (x * y)
  | _, _ => none

/-- Numpy float negation on possibly-NaN values. -/
noncomputable def nneg : Option ℝ → Option ℝ
  | some x => some (-x)
  | none => none

/-- Numpy float division: division by zero yields a non-finite float
(inf or NaN, modelled as `none`); NaN operands propagate. -/
noncomputable def ndiv : Option ℝ → Option ℝ → Option ℝ
  | some x, some y => if y = 0 then none else some (x / y)
  | _, _ => none

/-- Numpy `np.sqrt`: NaN on a negative argument (with only a runtime
warning, no exception), otherwise the real square root. -/
noncomputable def nsqrt : Option ℝ → Option ℝ
  | some x => if x < 0 then none else some (Real.sqrt x)
  | none => none

/-- `calculate_resistance` on the fitted center `(a, b)` and radius `r`:
`x2 = np.sqrt(r**2 - b**2) + a`; `x1 = -np.sqrt(r**2 - b**2) + a`;
`Re = x2`; `Ri = (x1*Re)/(Re - x1)`; `return Ri, Re` — in the NaN-aware
float model. -/
noncomputable def calculate_resistance (a b r : ℝ) : Option ℝ × Option ℝ :=
  let s := nsqrt (some (r ^ 2 - b ^ 2))
  let x2 := nadd s (some a)
  let x1 := nadd (nneg s) (some a)
  let Re := x2
  let Ri := ndiv (nmul x1 Re) (nsub Re x1)
  (Ri, Re)

/-- `calculate_body_water`, with `bmi` an input (the source reads
`self.bmi`, assigned earlier in `__init__`):
`k_ecw = 0.188/bmi + 0.2883`; `k_icw = 5.8758/bmi + 0.4194`;
`ecw = k_ecw * ((height**2 * sqrt(weight))/re) ** (2/3)`;
`icw = k_icw * ((height**2 * sqrt(weight))/ri) ** (2/3)`;
`tbw = ecw + icw`. -/
noncomputable def calculate_body_water (height weight bmi re ri : ℝ) :
    ℝ × ℝ × ℝ :=
  let k_ecw := 0.188 / bmi + 0.2883
  let k_icw := 5.8758 / bmi + 0.4194
  let ecw := k_ecw * ((height ^ 2 * Real.sqrt weight) / re) ^ ((2 : ℝ) / 3)
  let icw := k_icw * ((height ^ 2 * Real.sqrt weight) / ri) ^ ((2 : ℝ) / 3)
  (ecw, icw, ecw + icw)

/-- Outcome of the `main.py` entry point. -/
inductive CliOutcome
  | errorMsg
  | runPipeline
  | crash (e : PyErr)
  deriving DecidableEq

/-- The `main.py` check, with `os.path.isfile` abstracted as `isfile`:
`if not os.path.isfile(path) or path.split('.')[1] != 'mfu'` prints the
fixed error message, else runs the pipeline; `or` short-circuits, and
`path.split('.')[1]` raises `IndexError` when the path has no dot. -/
def cli_main (isfile : Bool) (path : String) : CliOutcome :=
  if isfile = false then .errorMsg
  else
    match (pySplit '.' path).get? 1 with
    | none => .crash .indexError
    | some t => if t = "mfu" then .runPipeline else .errorMsg

/-- The filename extension in the spec's sense: the token after the last
dot. Used only to compare the spec's ".mfu extension" wording with the
source's `path.split('.')[1]` check. -/
def lastDotComponent (path : String) : Option String :=
  (pySplit '.' path).getLast?

/-- All quantities assembled by `get_summary` / printed by `print_summary`. -/
structure AnalysisResults where
  height : ℝ
  weight : ℝ
  age : ℤ
  sex : String
  bmi : ℝ
  ri : ℝ
  re : ℝ
  ffm : ℝ
  ecw : ℝ
  icw : ℝ
  tbw : ℝ

/-- Python `'{:25s}'.format(s)`: left-justified padding to width 25. -/
def padTo25 (s : String) : String :=
  s ++ String.mk (List.replicate (25 - s.length) ' ')

/-- `print_summary`: the eleven lines printed, each formatted as
`'{:25s} {:.3f}'` (label padded to width 25, one space, value with three
decimals) except the sex line, which is `'{:25s} {:s}'`. The
three-decimal float formatter is abstracted as `fmt3`; `age`, an int in
the source, is passed to the float format. -/
def print_summary (fmt3 : ℝ → String) (res : AnalysisResults) : List String :=
  [ padTo25 "Wzrost" ++ " " ++ fmt3 res.height
  , padTo25 "Waga" ++ " " ++ fmt3 res.weight
  , padTo25 "Wiek" ++ " " ++ fmt3 (res.age : ℝ)
  , padTo25 "Plec" ++ " " ++ res.sex
  , padTo25 "BMI" ++ " " ++ fmt3 res.bmi
  , padTo25 "Rezystancja Re" ++ " " ++ fmt3 res.re
  , padTo25 "Rezystancja Ri" ++ " " ++ fmt3 res.ri
  , padTo25 "Masa beztluszczowa" ++ " " ++ fmt3 res.ffm
  , padTo25 "Plyn pozakomorkowy" ++ " " ++ fmt3 res.ecw
  , padTo25 "Plyn wewnatrzkomorkowy" ++ " " ++ fmt3 res.icw
  , padTo25 "Calkowita zawartosc plynu" ++ " " ++ fmt3 res.tbw ]

/-! ### Helper lemmas -/

theorem pyGet_ok_iff (l : List α) (i : ℕ) (a : α) :
    pyGet l i = .ok a ↔ l.get? i = some a := by
  unfold pyGet
  cases h : l.get? i <;> simp

theorem pyFloatE_ok_iff (fo : String → Option ℝ) (s : String) (v : ℝ) :
    pyFloatE fo s = .ok v ↔ fo s = some v := by
  unfold pyFloatE
  cases h : fo s <;> simp

theorem zipWith_get?_some (f : α → β → γ) :
    ∀ (as : List α) (bs : List β) (i : ℕ) (a : α) (b : β),
      as.get? i = some a → bs.get? i = some b →
      (List.zipWith f as bs).get? i = some (f a b) := by
  intro as
  induction as with
  | nil => intro bs i a b ha; simp at ha
  | cons a0 as ih =>
    intro bs i a b ha hb
    cases bs with
    | nil => simp at hb
    | cons b0 bs =>
      cases i with
      | zero =>
        simp only [List.get?] at ha hb
        obtain rfl : a0 = a := Option.some_inj.mp ha
        obtain rfl : b0 = b := Option.some_inj.mp hb
        rfl
      | succ n =>
        simp only [List.get?] at ha hb ⊢
        exact ih bs n a b ha hb

theorem zipWith_replicate_eq (f : α → β → γ) (n : ℕ) (a : α) (b : β) :
    List.zipWith f (List.replicate n a) (List.replicate n b) =
      List.replicate n (f a b) := by
  induction n with
  | zero => rfl
  | succ k ih => simp [List.replicate, ih]

theorem mean_replicate (n : ℕ) (hn : 1 ≤ n) (v : ℝ) :
    mean (List.replicate n v) = v := by
  unfold mean
  simp [List.sum_replicate, nsmul_eq_mul]
  rw [mul_div_cancel_left₀]
  exact Nat.cast_ne_zero.mpr (by omega)

/-! ### C1: structure of the circle fit -/

/-- Claim C1: for a sweep of at least 3 samples, `calculate_radius` runs
the least-squares solver on the residual vector whose entry `i` is
`R_i(center) - mean_j R_j(center)` (with `R_i` the Euclidean distance
from the candidate center to sample `i`), starting from the initial
guess `(mean freq, 0.0)`; the returned radius is the mean of the
distances at the converged center, returned together with that center. -/
theorem C1_calculate_radius_structure
    (leastsq : ((ℝ × ℝ) → List ℝ) → (ℝ × ℝ) → (ℝ × ℝ) × ℤ)
    (freq react : List ℝ)
    (hlen : react.length = freq.length) (h3 : 3 ≤ freq.length) :
    (calculate_radius leastsq freq react).2 =
      (leastsq (f_2 freq react) (mean freq, 0)).1
    ∧ (calculate_radius leastsq freq react).1 =
        mean (calc_R freq react
          (leastsq (f_2 freq react) (mean freq, 0)).1.1
          (leastsq (f_2 freq react) (mean freq, 0)).1.2)
    ∧ (∀ xc yc i fv xv, freq.get? i = some fv → react.get? i = some xv →
        (calc_R freq react xc yc).get? i =
          some (Real.sqrt ((fv - xc) ^ 2 + (xv - yc) ^ 2)))
    ∧ (∀ xc yc i d, (calc_R freq react xc yc).get? i = some d →
        (f_2 freq react (xc, yc)).get? i =
          some (d - mean (calc_R freq react xc yc))) := by
  refine ⟨rfl, rfl, ?_, ?_⟩
  · intro xc yc i fv xv hf hx
    exact zipWith_get?_some _ freq react i fv xv hf hx
  · intro xc yc i d hd
    unfold f_2
    rw [List.get?_map, hd]
    rfl

/-- Witness for C1 at a concrete 3-sample sweep and a concrete solver. -/
theorem C1_witness :
    (([0, 0, 0] : List ℝ).length = ([1, 2, 3] : List ℝ).length)
    ∧ (3 ≤ ([1, 2, 3] : List ℝ).length)
    ∧ (calculate_radius (fun _ c => (c, 1)) [1, 2, 3] [0, 0, 0]).2 =
        ((fun (_ : (ℝ × ℝ) → List ℝ) (c : ℝ × ℝ) => (c, (1 : ℤ)))
          (f_2 [1, 2, 3] [0, 0, 0]) (mean [1, 2, 3], 0)).1 :=
  ⟨rfl, by norm_num,
    (C1_calculate_radius_structure (fun _ c => (c, 1)) [1, 2, 3] [0, 0, 0]
      rfl (by norm_num)).1⟩

/-! ### C2: resistance extraction formulas -/

/-- Claim C2: for a fitted circle with center `(a, b)` and radius `r`
with `r² ≥ b²` and `Re ≠ x₁`, `calculate_resistance` returns exactly
`Re = a + √(r² - b²)` (the larger axis intercept, which satisfies the
circle equation) and `Ri = (x₁·Re)/(Re - x₁)` with `x₁ = a - √(r² - b²)`. -/
theorem C2_calculate_resistance_formulas (a b r : ℝ) (hb : b ^ 2 ≤ r ^ 2)
    (hne : a + Real.sqrt (r ^ 2 - b ^ 2) ≠ a - Real.sqrt (r ^ 2 - b ^ 2)) :
    calculate_resistance a b r =
      (some (((a - Real.sqrt (r ^ 2 - b ^ 2)) * (a + Real.sqrt (r ^ 2 - b ^ 2))) /
             ((a + Real.sqrt (r ^ 2 - b ^ 2)) - (a - Real.sqrt (r ^ 2 - b ^ 2)))),
       some (a + Real.sqrt (r ^ 2 - b ^ 2)))
    ∧ a - Real.sqrt (r ^ 2 - b ^ 2) ≤ a + Real.sqrt (r ^ 2 - b ^ 2)
    ∧ ((a + Real.sqrt (r ^ 2 - b ^ 2)) - a) ^ 2 + b ^ 2 = r ^ 2 := by
  have hge : (0 : ℝ) ≤ r ^ 2 - b ^ 2 := by linarith
  have h1 : nsqrt (some (r ^ 2 - b ^ 2)) = some (Real.sqrt (r ^ 2 - b ^ 2)) := by
    simp only [nsqrt]
    rw [if_neg (not_lt.mpr hge)]
  have hden : (Real.sqrt (r ^ 2 - b ^ 2) + a) - (-Real.sqrt (r ^ 2 - b ^ 2) + a) ≠ 0 := by
    intro h
    apply hne
    have hz : Real.sqrt (r ^ 2 - b ^ 2) = 0 := by linarith
    rw [hz]
    ring
  refine ⟨?_, ?_, ?_⟩
  · unfold calculate_resistance
    rw [h1]
    simp only [nneg, nadd, nmul, nsub, ndiv]
    rw [if_neg hden]
    refine Prod.ext ?_ ?_
    · simp only [Option.some_inj]
      ring_nf
    · simp only [Option.some_inj]
      ring
  · have := Real.sqrt_nonneg (r ^ 2 - b ^ 2)
    linarith
  · rw [add_sub_cancel_left, Real.sq_sqrt hge]
    ring

/-- Witness for C2 at the circle with center `(0, 3)` and radius `5`. -/
theorem C2_witness :
    ((3 : ℝ) ^ 2 ≤ 5 ^ 2)
    ∧ ((0 : ℝ) + Real.sqrt (5 ^ 2 - 3 ^ 2) ≠ 0 - Real.sqrt (5 ^ 2 - 3 ^ 2))
    ∧ (0 : ℝ) - Real.sqrt (5 ^ 2 - 3 ^ 2) ≤ 0 + Real.sqrt (5 ^ 2 - 3 ^ 2) := by
  have h4 : Real.sqrt ((5 : ℝ) ^ 2 - 3 ^ 2) = 4 := by
    rw [show ((5 : ℝ) ^ 2 - 3 ^ 2) = 4 ^ 2 by norm_num,
      Real.sqrt_sq (by norm_num : (0 : ℝ) ≤ 4)]
  have hb : (3 : ℝ) ^ 2 ≤ 5 ^ 2 := by norm_num
  have hne : (0 : ℝ) + Real.sqrt (5 ^ 2 - 3 ^ 2) ≠ 0 - Real.sqrt (5 ^ 2 - 3 ^ 2) := by
    rw [h4]
    norm_num
  exact ⟨hb, hne, (C2_calculate_resistance_formulas 0 3 5 hb hne).2.1⟩

/-! ### C3: fat-free mass -/

/-- Claim C3: for a sweep of `n ≥ 1` samples with nonzero frequencies,
`calculate_ffm` is the arithmetic mean over the samples of
`0.7374·height²/frequency + 0.1763·weight - 0.1773·age + 0.1198·reactance
- 2.4658`; for a sweep of `N` identical samples it equals the
single-sample formula value. -/
theorem C3_calculate_ffm_mean (height weight : ℝ) (age : ℤ) :
    (∀ freq react : List ℝ, react.length = freq.length → 1 ≤ freq.length →
      (∀ f ∈ freq, f ≠ 0) →
      calculate_ffm height weight age freq react =
        (List.zipWith (fun f x =>
            0.7374 * height ^ 2 / f + 0.1763 * weight - 0.1773 * (age : ℝ)
              + 0.1198 * x - 2.4658) freq react).sum / freq.length)
    ∧ (∀ (N : ℕ) (f x : ℝ), 1 ≤ N → f ≠ 0 →
        calculate_ffm height weight age (List.replicate N f) (List.replicate N x) =
          0.7374 * height ^ 2 / f + 0.1763 * weight - 0.1773 * (age : ℝ)
            + 0.1198 * x - 2.4658) := by
  constructor
  · intro freq react hlen h1 hf
    unfold calculate_ffm mean
    rw [List.length_zipWith, hlen, min_self]
  · intro N f x hN hf
    unfold calculate_ffm
    rw [zipWith_replicate_eq, mean_replicate N hN]

/-- Witness for C3: two identical samples give the single-sample value. -/
theorem C3_witness :
    (1 ≤ 2) ∧ ((50 : ℝ) ≠ 0)
    ∧ calculate_ffm 170 70 30 (List.replicate 2 50) (List.replicate 2 (-30)) =
        0.7374 * (170 : ℝ) ^ 2 / 50 + 0.1763 * 70 - 0.1773 * ((30 : ℤ) : ℝ)
          + 0.1198 * (-30) - 2.4658 :=
  ⟨by norm_num, by norm_num,
    (C3_calculate_ffm_mean 170 70 30).2 2 50 (-30) (by norm_num) (by norm_num)⟩

/-! ### C4: body water compartments -/

/-- Claim C4: for positive height, weight, `Re`, `Ri`, with
`bmi = weight/((height/100)²)` as computed by `calculate_bmi`,
`calculate_body_water` returns exactly
`ecw = (0.188/bmi + 0.2883)·((height²·√weight)/Re)^(2/3)`,
`icw = (5.8758/bmi + 0.4194)·((height²·√weight)/Ri)^(2/3)`, and
`tbw = ecw + icw`, with these literal coefficients. -/
theorem C4_calculate_body_water_formulas (height weight re ri bmi : ℝ)
    (hh : 0 < height) (hw : 0 < weight) (hre : 0 < re) (hri : 0 < ri)
    (hbmi : bmi = calculate_bmi height weight) :
    bmi = weight / ((height / 100) ^ 2)
    ∧ calculate_body_water height weight bmi re ri =
        ((0.188 / bmi + 0.2883) * ((height ^ 2 * Real.sqrt weight) / re) ^ ((2 : ℝ) / 3),
         (5.8758 / bmi + 0.4194) * ((height ^ 2 * Real.sqrt weight) / ri) ^ ((2 : ℝ) / 3),
         (0.188 / bmi + 0.2883) * ((height ^ 2 * Real.sqrt weight) / re) ^ ((2 : ℝ) / 3)
           + (5.8758 / bmi + 0.4194) * ((height ^ 2 * Real.sqrt weight) / ri) ^ ((2 : ℝ) / 3)) :=
  ⟨hbmi, rfl⟩

/-- Witness for C4 at height 170, weight 70, `Re` = 4, `Ri` = 2. -/
theorem C4_witness :
    ((0 : ℝ) < 170) ∧ ((0 : ℝ) < 70) ∧ ((0 : ℝ) < 4) ∧ ((0 : ℝ) < 2)
    ∧ calculate_bmi 170 70 = 70 / ((170 / 100) ^ 2) :=
  ⟨by norm_num, by norm_num, by norm_num, by norm_num,
    (C4_calculate_body_water_formulas 170 70 4 2 (calculate_bmi 170 70)
      (by norm_num) (by norm_num) (by norm_num) (by norm_num) rfl).1⟩

/-! ### C5: parser layout -/

theorem except_ok_bind {α β : Type} (a : α) (k : α → Except PyErr β) :
    (Except.ok a >>= k) = k a := rfl

theorem except_bind_ok_inv {α β : Type} {e : Except PyErr α}
    {k : α → Except PyErr β} {b : β}
    (h : (e >>= k) = .ok b) : ∃ a, e = .ok a ∧ k a = .ok b := by
  cases e with
  | error err => exact absurd h (by simp [Bind.bind, Except.bind])
  | ok a => exact ⟨a, rfl, by simpa [Bind.bind, Except.bind] using h⟩

theorem get_freq_react_data_ok_spec (fo : String → Option ℝ) :
    ∀ (rows : List (List String)) (fs xs : List ℝ),
      get_freq_react_data fo rows = .ok (fs, xs) →
      fs.length = rows.length ∧ xs.length = rows.length ∧
      ∀ i row, rows.get? i = some row →
        3 ≤ row.length ∧ (row.get? 1).bind fo = fs.get? i ∧
          (row.get? 2).bind fo = xs.get? i := by
  intro rows
  induction rows with
  | nil =>
    intro fs xs h
    simp only [get_freq_react_data, Except.ok.injEq, Prod.mk.injEq] at h
    obtain ⟨rfl, rfl⟩ := h.symm
    refine ⟨rfl, rfl, ?_⟩
    intro i row hr
    simp at hr
  | cons sample rest ih =>
    intro fs xs h
    simp only [get_freq_react_data] at h
    obtain ⟨s1, e1, h⟩ := except_bind_ok_inv h
    obtain ⟨f, e2, h⟩ := except_bind_ok_inv h
    obtain ⟨s2, e3, h⟩ := except_bind_ok_inv h
    obtain ⟨x, e4, h⟩ := except_bind_ok_inv h
    obtain ⟨p, e5, h⟩ := except_bind_ok_inv h
    have hpair : (f :: p.1, x :: p.2) = (fs, xs) := by
      simpa [pure, Except.pure] using h
    obtain ⟨rfl, rfl⟩ := Prod.mk.injEq _ _ _ _ |>.mp hpair.symm
    obtain ⟨hl1, hl2, hidx⟩ := ih p.1 p.2 (by rw [e5])
    refine ⟨by simp [hl1], by simp [hl2], ?_⟩
    intro i row hr
    cases i with
    | zero =>
      obtain rfl : sample = row := by simpa using hr
      have hg1 : sample.get? 1 = some s1 := (pyGet_ok_iff _ _ _).mp e1
      have hg2 : sample.get? 2 = some s2 := (pyGet_ok_iff _ _ _).mp e3
      have hlen : 2 < sample.length := (List.get?_eq_some.mp hg2).1
      refine ⟨by omega, ?_, ?_⟩
      · rw [hg1]
        simpa using (pyFloatE_ok_iff fo s1 f).mp e2
      · rw [hg2]
        simpa using (pyFloatE_ok_iff fo s2 x).mp e4
    | succ n =>
      simp only [List.get?] at hr
      obtain ⟨h3', h1', h2'⟩ := hidx n row hr
      exact ⟨h3', by simpa using h1', by simpa using h2'⟩

theorem extract_impedance_data_length (data : List String) :
    (extract_impedance_data data).length = data.length - 14 := by
  simp [extract_impedance_data, pySlice13ToLast]
  omega

theorem extract_impedance_data_get? (data : List String) (i : ℕ)
    (h : 13 + i + 1 < data.length) :
    (extract_impedance_data data).get? i =
      (data.get? (13 + i)).map (pySplit ',') := by
  unfold extract_impedance_data pySlice13ToLast
  rw [List.get?_map, List.get?_take (by omega : i < data.length - 14),
    List.get?_drop]

/-- Counterexample to claim C5 as frozen: on a file whose line index 2
separates its label from the height with a tab, the second
whitespace-separated token is `"170.0"` and parses as a float, yet the
code (which splits on the single space character only) raises
`IndexError` instead of parsing the height from it. -/
theorem C5_counterexample :
    (wsTokens "Wzrost\t170.0").get? 1 = some "170.0"
    ∧ (fun s => if s = "170.0" then some (170 : ℝ) else none) "170.0" = some 170
    ∧ parseSubject (fun s => if s = "170.0" then some (170 : ℝ) else none)
        (fun _ => none)
        ["L0", "L1", "Wzrost\t170.0", "Waga 70.0", "Wiek 30", "Plec M",
         "L6", "L7", "L8", "L9", "L10", "L11", "L12", "1,50,-30", "end"] =
        .error .indexError :=
  ⟨rfl, rfl, rfl⟩

/-- Claim C5 (amended): height is parsed as a float from the token at
index 1 of line index 2 split on the single space character (Python
`split(' ')`, not general whitespace), weight likewise from line index 3,
age as an integer from line index 4, sex from line index 5; the sample
sequence consists of lines from index 13 up to but excluding the final
line, each split on commas, with frequency read from field index 1 and
reactance from field index 2. -/
theorem C5_parser_layout (fo : String → Option ℝ) (zo : String → Option ℤ)
    (data : List String) (l2 l3 l4 l5 t2 t3 t4 sexTok : String)
    (hv wv : ℝ) (av : ℤ)
    (h2 : data.get? 2 = some l2) (ht2 : (pySplit ' ' l2).get? 1 = some t2)
    (hf2 : fo t2 = some hv)
    (h3 : data.get? 3 = some l3) (ht3 : (pySplit ' ' l3).get? 1 = some t3)
    (hf3 : fo t3 = some wv)
    (h4 : data.get? 4 = some l4) (ht4 : (pySplit ' ' l4).get? 1 = some t4)
    (hf4 : zo t4 = some av)
    (h5 : data.get? 5 = some l5) (ht5 : (pySplit ' ' l5).get? 1 = some sexTok) :
    parseSubject fo zo data = .ok ⟨hv, wv, av, sexTok⟩
    ∧ (extract_impedance_data data).length = data.length - 14
    ∧ (∀ i, 13 + i + 1 < data.length →
        (extract_impedance_data data).get? i =
          (data.get? (13 + i)).map (pySplit ','))
    ∧ (∀ rows fs xs, get_freq_react_data fo rows = .ok (fs, xs) →
        fs.length = rows.length ∧ xs.length = rows.length ∧
        ∀ i row, rows.get? i = some row →
          (row.get? 1).bind fo = fs.get? i ∧
            (row.get? 2).bind fo = xs.get? i) := by
  refine ⟨?_, extract_impedance_data_length data,
    fun i h => extract_impedance_data_get? data i h, ?_⟩
  · simp only [parseSubject, pyGet, pyFloatE, pyIntE, except_ok_bind, h2, ht2,
      hf2, h3, ht3, hf3, h4, ht4, hf4, h5, ht5]
    rfl
  · intro rows fs xs h
    obtain ⟨a, b, c⟩ := get_freq_react_data_ok_spec fo rows fs xs h
    exact ⟨a, b, fun i row hr => ⟨(c i row hr).2.1, (c i row hr).2.2⟩⟩

/-- Witness for C5 on a concrete well-formed 15-line file. -/
theorem C5_witness :
    (["L0", "L1", "Wzrost 180.0", "Waga 80.0", "Wiek 40", "Plec K",
      "L6", "L7", "L8", "L9", "L10", "L11", "L12", "1,55,-25", "end"].get? 2 =
        some "Wzrost 180.0")
    ∧ parseSubject
        (fun s => if s = "180.0" then some (180 : ℝ)
          else if s = "80.0" then some 80 else none)
        (fun s => if s = "40" then some (40 : ℤ) else none)
        ["L0", "L1", "Wzrost 180.0", "Waga 80.0", "Wiek 40", "Plec K",
         "L6", "L7", "L8", "L9", "L10", "L11", "L12", "1,55,-25", "end"] =
        .ok ⟨180, 80, 40, "K"⟩ :=
  ⟨rfl,
    (C5_parser_layout
      (fun s => if s = "180.0" then some (180 : ℝ)
        else if s = "80.0" then some 80 else none)
      (fun s => if s = "40" then some (40 : ℤ) else none)
      ["L0", "L1", "Wzrost 180.0", "Waga 80.0", "Wiek 40", "Plec K",
       "L6", "L7", "L8", "L9", "L10", "L11", "L12", "1,55,-25", "end"]
      "Wzrost 180.0" "Waga 80.0" "Wiek 40" "Plec K" "180.0" "80.0" "40" "K"
      180 80 40
      rfl rfl rfl rfl rfl rfl rfl rfl rfl rfl rfl).1⟩

/-! ### C6: resistance extraction on degenerate circles -/

/-- Counterexample to claim C6 as frozen: for the fitted center `(0, 2)`
and radius `1` (so `r² < b²`), `calculate_resistance` does not fail with
any error: it returns normally, with NaN (`none`) for both `Ri` and `Re`. -/
theorem C6_counterexample : calculate_resistance 0 2 1 = (none, none) := by
  simp only [calculate_resistance, nsqrt]
  rw [if_pos (by norm_num : ((1 : ℝ) ^ 2 - 2 ^ 2) < 0)]
  rfl

/-- Claim C6 (amended): the code performs no domain or degeneracy check.
For `r² < b²`, `np.sqrt` of the negative argument yields NaN (with only a
runtime warning) and `calculate_resistance` returns NaN for both `Ri` and
`Re` instead of raising a DomainError; for `r² = b²` (where `Re = x₁`),
the division by zero yields a non-finite `Ri` instead of raising a
DivisionError; no DomainError or DivisionError exists in the program. -/
theorem C6_nan_behavior (a b r : ℝ) :
    (r ^ 2 < b ^ 2 → calculate_resistance a b r = (none, none))
    ∧ (r ^ 2 = b ^ 2 → (calculate_resistance a b r).1 = none) := by
  constructor
  · intro h
    simp only [calculate_resistance, nsqrt]
    rw [if_pos (by linarith : r ^ 2 - b ^ 2 < 0)]
    rfl
  · intro h
    have hz : Real.sqrt (r ^ 2 - b ^ 2) = 0 := by
      rw [show r ^ 2 - b ^ 2 = 0 by linarith, Real.sqrt_zero]
    simp only [calculate_resistance, nsqrt]
    rw [if_neg (by linarith : ¬(r ^ 2 - b ^ 2 < 0)), hz]
    simp only [nneg, nadd, nmul, nsub, ndiv]
    rw [if_pos (by ring : (0 + a) - (-0 + a) = 0)]

/-- Witness for C6 at the center `(5, 3)` and radius `2`. -/
theorem C6_witness :
    ((2 : ℝ) ^ 2 < 3 ^ 2) ∧ calculate_resistance 5 3 2 = (none, none) :=
  ⟨by norm_num, (C6_nan_behavior 5 3 2).1 (by norm_num)⟩

/-! ### C7: convergence status of the circle fit -/

/-- Counterexample to claim C7 as frozen: with a solver reporting status
`ier = 5` (scipy: out of the success range 1..4, i.e. no convergence) and
returning the point `(1, 2)`, `calculate_radius` still returns the fitted
pair — radius 5, center `(1, 2)` — as a plain value; nothing fails. -/
theorem C7_counterexample :
    calculate_radius (fun _ _ => ((1, 2), 5)) [4, 1, -2] [6, 7, 6] =
      (5, (1, 2)) := by
  have h25 : Real.sqrt (25 : ℝ) = 5 := by
    rw [show (25 : ℝ) = 5 ^ 2 by norm_num,
      Real.sqrt_sq (by norm_num : (0 : ℝ) ≤ 5)]
  have e1 : Real.sqrt (((4 : ℝ) - 1) ^ 2 + (6 - 2) ^ 2) = 5 := by
    rw [show ((4 : ℝ) - 1) ^ 2 + (6 - 2) ^ 2 = 25 by norm_num]
    exact h25
  have e2 : Real.sqrt (((1 : ℝ) - 1) ^ 2 + (7 - 2) ^ 2) = 5 := by
    rw [show ((1 : ℝ) - 1) ^ 2 + (7 - 2) ^ 2 = 25 by norm_num]
    exact h25
  have e3 : Real.sqrt (((-2 : ℝ) - 1) ^ 2 + (6 - 2) ^ 2) = 5 := by
    rw [show ((-2 : ℝ) - 1) ^ 2 + (6 - 2) ^ 2 = 25 by norm_num]
    exact h25
  simp only [calculate_radius, calc_R, mean, List.zipWith, e1, e2, e3]
  norm_num

/-- Claim C7 (amended): `calculate_radius` unpacks `(center, ier)` from
`optimize.leastsq` but never inspects `ier`: its result depends only on
the solver's returned point, so a non-converged solution is returned to
callers exactly like a converged one; no ConvergenceError exists in the
program. -/
theorem C7_ier_ignored
    (sol : ((ℝ × ℝ) → List ℝ) → (ℝ × ℝ) → (ℝ × ℝ))
    (ierOne ierTwo : ℤ) (freq react : List ℝ) :
    calculate_radius (fun F c => (sol F c, ierOne)) freq react =
      calculate_radius (fun F c => (sol F c, ierTwo)) freq react := rfl

/-! ### C8: parser error behavior -/

/-- Counterexample to claim C8 as frozen: a 7-line file (fewer than 14
lines) with well-formed metadata does not fail with any error, let alone
a TruncatedInputError: parsing fully succeeds, with an empty sample list
(the slice `data[13:-1]` is empty). -/
theorem C8_counterexample :
    parse_init
      (fun s => if s = "170.0" then some (170 : ℝ)
        else if s = "70.0" then some 70 else none)
      (fun s => if s = "30" then some (30 : ℤ) else none)
      ["L0", "L1", "Wzrost 170.0", "Waga 70.0", "Wiek 30", "Plec M", "x"] =
      .ok (⟨170, 70, 30, "M"⟩, [], []) := rfl

/-- First-error behavior of the sample loop: when the rows before some
row all parse, the loop's error on that row is the error of its first
failing operation, in the source's evaluation order (`sample[1]`,
`float`, `sample[2]`, `float`): a missing field index is an
`IndexError`, an unparseable field a `ValueError`. -/
theorem get_freq_react_data_append_error (fo : String → Option ℝ) :
    ∀ (pre : List (List String)) (fs xs : List ℝ) (row : List String)
      (rest : List (List String)),
      get_freq_react_data fo pre = .ok (fs, xs) →
      ((row.get? 1 = none →
          get_freq_react_data fo (pre ++ row :: rest) = .error .indexError)
      ∧ (∀ s1, row.get? 1 = some s1 → fo s1 = none →
          get_freq_react_data fo (pre ++ row :: rest) = .error .valueError)
      ∧ (∀ s1 v, row.get? 1 = some s1 → fo s1 = some v → row.get? 2 = none →
          get_freq_react_data fo (pre ++ row :: rest) = .error .indexError)
      ∧ (∀ s1 v s2, row.get? 1 = some s1 → fo s1 = some v →
          row.get? 2 = some s2 → fo s2 = none →
          get_freq_react_data fo (pre ++ row :: rest) = .error .valueError)) := by
  intro pre
  induction pre with
  | nil =>
    intro fs xs row rest hok
    refine ⟨?_, ?_, ?_, ?_⟩
    · intro h1
      simp only [List.nil_append, get_freq_react_data, pyGet, h1]
      rfl
    · intro s1 h1 hf
      simp only [List.nil_append, get_freq_react_data, pyGet, pyFloatE, h1,
        hf, except_ok_bind]
      rfl
    · intro s1 v h1 hf h2
      simp only [List.nil_append, get_freq_react_data, pyGet, pyFloatE, h1,
        hf, h2, except_ok_bind]
      rfl
    · intro s1 v s2 h1 hf h2 hf2
      simp only [List.nil_append, get_freq_react_data, pyGet, pyFloatE, h1,
        hf, h2, hf2, except_ok_bind]
      rfl
  | cons p pre ih =>
    intro fs xs row rest hok
    simp only [get_freq_react_data] at hok
    obtain ⟨s1p, e1, hok⟩ := except_bind_ok_inv hok
    obtain ⟨fp, e2, hok⟩ := except_bind_ok_inv hok
    obtain ⟨s2p, e3, hok⟩ := except_bind_ok_inv hok
    obtain ⟨xp, e4, hok⟩ := except_bind_ok_inv hok
    obtain ⟨q, e5, hok⟩ := except_bind_ok_inv hok
    obtain ⟨ihA, ihB, ihC, ihD⟩ := ih q.1 q.2 row rest (by rw [e5])
    refine ⟨?_, ?_, ?_, ?_⟩
    · intro h1
      simp only [List.cons_append, get_freq_react_data, e1, e2, e3, e4,
        except_ok_bind, List.append_eq, ihA h1]
      rfl
    · intro s1 h1 hf
      simp only [List.cons_append, get_freq_react_data, e1, e2, e3, e4,
        except_ok_bind, List.append_eq, ihB s1 h1 hf]
      rfl
    · intro s1 v h1 hf h2
      simp only [List.cons_append, get_freq_react_data, e1, e2, e3, e4,
        except_ok_bind, List.append_eq, ihC s1 v h1 hf h2]
      rfl
    · intro s1 v s2 h1 hf h2 hf2
      simp only [List.cons_append, get_freq_react_data, e1, e2, e3, e4,
        except_ok_bind, List.append_eq, ihD s1 v s2 h1 hf h2 hf2]
      rfl

/-- Claim C8 (amended): the program defines no ParseError or
TruncatedInputError. A file with fewer than 14 lines whose metadata lines
parse does not fail at all: parsing succeeds with an empty sample list. A
missing line, or a missing token on a present line — in the metadata
(lines 2 to 5) as well as in a sample row — fails with Python's plain
built-in `IndexError`; a malformed numeric token in any required field
(height, weight, age, or a sample row's frequency or reactance field,
each at the first point of failure in the source's evaluation order)
fails with Python's plain built-in `ValueError`; neither identifies a
field or a line. -/
theorem C8_error_behavior (fo : String → Option ℝ) (zo : String → Option ℤ)
    (data : List String) :
    (∀ subj, data.length < 14 → parseSubject fo zo data = .ok subj →
        parse_init fo zo data = .ok (subj, [], []))
    ∧ (data.get? 2 = none → parse_init fo zo data = .error .indexError)
    ∧ (∀ l2, data.get? 2 = some l2 → (pySplit ' ' l2).get? 1 = none →
        parse_init fo zo data = .error .indexError)
    ∧ (∀ l2 t2, data.get? 2 = some l2 → (pySplit ' ' l2).get? 1 = some t2 →
        fo t2 = none → parse_init fo zo data = .error .valueError)
    ∧ (∀ l2 t2 hv, data.get? 2 = some l2 → (pySplit ' ' l2).get? 1 = some t2 →
        fo t2 = some hv → data.get? 3 = none →
        parse_init fo zo data = .error .indexError)
    ∧ (∀ l2 t2 hv l3, data.get? 2 = some l2 →
        (pySplit ' ' l2).get? 1 = some t2 → fo t2 = some hv →
        data.get? 3 = some l3 → (pySplit ' ' l3).get? 1 = none →
        parse_init fo zo data = .error .indexError)
    ∧ (∀ l2 t2 hv l3 t3, data.get? 2 = some l2 →
        (pySplit ' ' l2).get? 1 = some t2 → fo t2 = some hv →
        data.get? 3 = some l3 → (pySplit ' ' l3).get? 1 = some t3 →
        fo t3 = none → parse_init fo zo data = .error .valueError)
    ∧ (∀ l2 t2 hv l3 t3 wv, data.get? 2 = some l2 →
        (pySplit ' ' l2).get? 1 = some t2 → fo t2 = some hv →
        data.get? 3 = some l3 → (pySplit ' ' l3).get? 1 = some t3 →
        fo t3 = some wv → data.get? 4 = none →
        parse_init fo zo data = .error .indexError)
    ∧ (∀ l2 t2 hv l3 t3 wv l4, data.get? 2 = some l2 →
        (pySplit ' ' l2).get? 1 = some t2 → fo t2 = some hv →
        data.get? 3 = some l3 → (pySplit ' ' l3).get? 1 = some t3 →
        fo t3 = some wv → data.get? 4 = some l4 →
        (pySplit ' ' l4).get? 1 = none →
        parse_init fo zo data = .error .indexError)
    ∧ (∀ l2 t2 hv l3 t3 wv l4 t4, data.get? 2 = some l2 →
        (pySplit ' ' l2).get? 1 = some t2 → fo t2 = some hv →
        data.get? 3 = some l3 → (pySplit ' ' l3).get? 1 = some t3 →
        fo t3 = some wv → data.get? 4 = some l4 →
        (pySplit ' ' l4).get? 1 = some t4 → zo t4 = none →
        parse_init fo zo data = .error .valueError)
    ∧ (∀ l2 t2 hv l3 t3 wv l4 t4 av, data.get? 2 = some l2 →
        (pySplit ' ' l2).get? 1 = some t2 → fo t2 = some hv →
        data.get? 3 = some l3 → (pySplit ' ' l3).get? 1 = some t3 →
        fo t3 = some wv → data.get? 4 = some l4 →
        (pySplit ' ' l4).get? 1 = some t4 → zo t4 = some av →
        data.get? 5 = none → parse_init fo zo data = .error .indexError)
    ∧ (∀ l2 t2 hv l3 t3 wv l4 t4 av l5, data.get? 2 = some l2 →
        (pySplit ' ' l2).get? 1 = some t2 → fo t2 = some hv →
        data.get? 3 = some l3 → (pySplit ' ' l3).get? 1 = some t3 →
        fo t3 = some wv → data.get? 4 = some l4 →
        (pySplit ' ' l4).get? 1 = some t4 → zo t4 = some av →
        data.get? 5 = some l5 → (pySplit ' ' l5).get? 1 = none →
        parse_init fo zo data = .error .indexError)
    ∧ (∀ subj pre row rest fs xs, parseSubject fo zo data = .ok subj →
        extract_impedance_data data = pre ++ row :: rest →
        get_freq_react_data fo pre = .ok (fs, xs) → row.get? 1 = none →
        parse_init fo zo data = .error .indexError)
    ∧ (∀ subj pre row rest fs xs s1, parseSubject fo zo data = .ok subj →
        extract_impedance_data data = pre ++ row :: rest →
        get_freq_react_data fo pre = .ok (fs, xs) → row.get? 1 = some s1 →
        fo s1 = none → parse_init fo zo data = .error .valueError)
    ∧ (∀ subj pre row rest fs xs s1 v, parseSubject fo zo data = .ok subj →
        extract_impedance_data data = pre ++ row :: rest →
        get_freq_react_data fo pre = .ok (fs, xs) → row.get? 1 = some s1 →
        fo s1 = some v → row.get? 2 = none →
        parse_init fo zo data = .error .indexError)
    ∧ (∀ subj pre row rest fs xs s1 v s2, parseSubject fo zo data = .ok subj →
        extract_impedance_data data = pre ++ row :: rest →
        get_freq_react_data fo pre = .ok (fs, xs) → row.get? 1 = some s1 →
        fo s1 = some v → row.get? 2 = some s2 → fo s2 = none →
        parse_init fo zo data = .error .valueError) := by
  refine ⟨?_, ?_, ?_, ?_, ?_, ?_, ?_, ?_, ?_, ?_, ?_, ?_, ?_, ?_, ?_, ?_⟩
  · intro subj hlen hsub
    have hext : extract_impedance_data data = [] := by
      unfold extract_impedance_data pySlice13ToLast
      rw [show data.length - 14 = 0 by omega]
      simp
    simp only [parse_init, hsub, except_ok_bind, hext, get_freq_react_data]
    rfl
  · intro h2
    have hps : parseSubject fo zo data = .error .indexError := by
      simp only [parseSubject, pyGet, h2]
      rfl
    simp only [parse_init, hps]
    rfl
  · intro l2 h2 ht2
    have hps : parseSubject fo zo data = .error .indexError := by
      simp only [parseSubject, pyGet, except_ok_bind, h2, ht2]
      rfl
    simp only [parse_init, hps]
    rfl
  · intro l2 t2 h2 ht2 hf2
    have hps : parseSubject fo zo data = .error .valueError := by
      simp only [parseSubject, pyGet, pyFloatE, except_ok_bind, h2, ht2, hf2]
      rfl
    simp only [parse_init, hps]
    rfl
  · intro l2 t2 hv h2 ht2 hf2 h3
    have hps : parseSubject fo zo data = .error .indexError := by
      simp only [parseSubject, pyGet, pyFloatE, except_ok_bind, h2, ht2, hf2,
        h3]
      rfl
    simp only [parse_init, hps]
    rfl
  · intro l2 t2 hv l3 h2 ht2 hf2 h3 ht3
    have hps : parseSubject fo zo data = .error .indexError := by
      simp only [parseSubject, pyGet, pyFloatE, except_ok_bind, h2, ht2, hf2,
        h3, ht3]
      rfl
    simp only [parse_init, hps]
    rfl
  · intro l2 t2 hv l3 t3 h2 ht2 hf2 h3 ht3 hf3
    have hps : parseSubject fo zo data = .error .valueError := by
      simp only [parseSubject, pyGet, pyFloatE, except_ok_bind, h2, ht2, hf2,
        h3, ht3, hf3]
      rfl
    simp only [parse_init, hps]
    rfl
  · intro l2 t2 hv l3 t3 wv h2 ht2 hf2 h3 ht3 hf3 h4
    have hps : parseSubject fo zo data = .error .indexError := by
      simp only [parseSubject, pyGet, pyFloatE, except_ok_bind, h2, ht2, hf2,
        h3, ht3, hf3, h4]
      rfl
    simp only [parse_init, hps]
    rfl
  · intro l2 t2 hv l3 t3 wv l4 h2 ht2 hf2 h3 ht3 hf3 h4 ht4
    have hps : parseSubject fo zo data = .error .indexError := by
      simp only [parseSubject, pyGet, pyFloatE, except_ok_bind, h2, ht2, hf2,
        h3, ht3, hf3, h4, ht4]
      rfl
    simp only [parse_init, hps]
    rfl
  · intro l2 t2 hv l3 t3 wv l4 t4 h2 ht2 hf2 h3 ht3 hf3 h4 ht4 hf4
    have hps : parseSubject fo zo data = .error .valueError := by
      simp only [parseSubject, pyGet, pyFloatE, pyIntE, except_ok_bind, h2,
        ht2, hf2, h3, ht3, hf3, h4, ht4, hf4]
      rfl
    simp only [parse_init, hps]
    rfl
  · intro l2 t2 hv l3 t3 wv l4 t4 av h2 ht2 hf2 h3 ht3 hf3 h4 ht4 hf4 h5
    have hps : parseSubject fo zo data = .error .indexError := by
      simp only [parseSubject, pyGet, pyFloatE, pyIntE, except_ok_bind, h2,
        ht2, hf2, h3, ht3, hf3, h4, ht4, hf4, h5]
      rfl
    simp only [parse_init, hps]
    rfl
  · intro l2 t2 hv l3 t3 wv l4 t4 av l5 h2 ht2 hf2 h3 ht3 hf3 h4 ht4 hf4 h5 ht5
    have hps : parseSubject fo zo data = .error .indexError := by
      simp only [parseSubject, pyGet, pyFloatE, pyIntE, except_ok_bind, h2,
        ht2, hf2, h3, ht3, hf3, h4, ht4, hf4, h5, ht5]
      rfl
    simp only [parse_init, hps]
    rfl
  · intro subj pre row rest fs xs hsubj hext hpre h1
    have he :=
      ((get_freq_react_data_append_error fo pre fs xs row rest hpre).1) h1
    simp only [parse_init, hsubj, except_ok_bind, hext, he]
    rfl
  · intro subj pre row rest fs xs s1 hsubj hext hpre h1 hf
    have he :=
      ((get_freq_react_data_append_error fo pre fs xs row rest hpre).2.1)
        s1 h1 hf
    simp only [parse_init, hsubj, except_ok_bind, hext, he]
    rfl
  · intro subj pre row rest fs xs s1 v hsubj hext hpre h1 hf h2
    have he :=
      ((get_freq_react_data_append_error fo pre fs xs row rest hpre).2.2.1)
        s1 v h1 hf h2
    simp only [parse_init, hsubj, except_ok_bind, hext, he]
    rfl
  · intro subj pre row rest fs xs s1 v s2 hsubj hext hpre h1 hf h2 hf2
    have he :=
      ((get_freq_react_data_append_error fo pre fs xs row rest hpre).2.2.2)
        s1 v s2 h1 hf h2 hf2
    simp only [parse_init, hsubj, except_ok_bind, hext, he]
    rfl

/-- Witness for C8: a 2-line file fails with `IndexError` at `data[2]`,
and a malformed height token fails with a plain `ValueError`. -/
theorem C8_witness :
    ((["L0", "L1"] : List String).get? 2 = none)
    ∧ parse_init (fun _ => none) (fun _ => none) ["L0", "L1"] =
        .error .indexError
    ∧ (["L0", "L1", "Wzrost abc", "Waga 70.0", "Wiek 30", "Plec M", "x"].get? 2 =
        some "Wzrost abc")
    ∧ parse_init (fun _ => none) (fun _ => none)
        ["L0", "L1", "Wzrost abc", "Waga 70.0", "Wiek 30", "Plec M", "x"] =
        .error .valueError :=
  ⟨rfl,
    (C8_error_behavior (fun _ => none) (fun _ => none) ["L0", "L1"]).2.1 rfl,
    rfl,
    (C8_error_behavior (fun _ => none) (fun _ => none)
      ["L0", "L1", "Wzrost abc", "Waga 70.0", "Wiek 30", "Plec M", "x"]).2.2.2.1
      "Wzrost abc" "abc" rfl rfl rfl⟩

/-! ### C9: CLI contract -/

/-- Counterexample to claim C9 as frozen: `main.py` tests
`path.split('.')[1] != 'mfu'`, the token after the first dot, not the
extension. So for an existing file `"file.mfu.bak"` (extension `bak`)
the pipeline runs although the claim requires the error message; for an
existing file `"a.b.mfu"` (extension `mfu`) the error message is printed
although the claim requires the pipeline to run; and for an existing
dotless path `"data"` the program crashes with `IndexError` instead of
printing the fixed error message. -/
theorem C9_counterexample :
    cli_main true "file.mfu.bak" = .runPipeline
    ∧ lastDotComponent "file.mfu.bak" = some "bak"
    ∧ cli_main true "a.b.mfu" = .errorMsg
    ∧ lastDotComponent "a.b.mfu" = some "mfu"
    ∧ cli_main true "data" = .crash .indexError :=
  ⟨rfl, rfl, rfl, rfl, rfl⟩

/-- Claim C9 (amended): for a non-existing path the fixed error message
is printed without running the pipeline; for an existing path the
program inspects the token after the first dot of `path.split('.')`:
with no dot it crashes with `IndexError`, with the token equal to
`"mfu"` it runs the pipeline (regardless of the actual last-component
extension), and otherwise it prints the fixed error message. On success
the summary is printed as eleven lines, label column padded to width 25
and values through the three-decimal float format, in the exact order
height, weight, age, sex, BMI, Re, Ri, FFM, ECW, ICW, TBW. -/
theorem C9_cli_behavior (p t : String) (fmt3 : ℝ → String)
    (res : AnalysisResults) :
    (cli_main false p = .errorMsg)
    ∧ ((pySplit '.' p).get? 1 = none → cli_main true p = .crash .indexError)
    ∧ ((pySplit '.' p).get? 1 = some t → t = "mfu" →
        cli_main true p = .runPipeline)
    ∧ ((pySplit '.' p).get? 1 = some t → t ≠ "mfu" →
        cli_main true p = .errorMsg)
    ∧ print_summary fmt3 res =
        [ padTo25 "Wzrost" ++ " " ++ fmt3 res.height
        , padTo25 "Waga" ++ " " ++ fmt3 res.weight
        , padTo25 "Wiek" ++ " " ++ fmt3 (res.age : ℝ)
        , padTo25 "Plec" ++ " " ++ res.sex
        , padTo25 "BMI" ++ " " ++ fmt3 res.bmi
        , padTo25 "Rezystancja Re" ++ " " ++ fmt3 res.re
        , padTo25 "Rezystancja Ri" ++ " " ++ fmt3 res.ri
        , padTo25 "Masa beztluszczowa" ++ " " ++ fmt3 res.ffm
        , padTo25 "Plyn pozakomorkowy" ++ " " ++ fmt3 res.ecw
        , padTo25 "Plyn wewnatrzkomorkowy" ++ " " ++ fmt3 res.icw
        , padTo25 "Calkowita zawartosc plynu" ++ " " ++ fmt3 res.tbw ] := by
  refine ⟨rfl, ?_, ?_, ?_, rfl⟩
  · intro h
    unfold cli_main
    rw [h]
    rfl
  · intro h ht
    subst ht
    unfold cli_main
    rw [h]
    rfl
  · intro h ht
    have hm : cli_main true p =
        if t = "mfu" then CliOutcome.runPipeline else .errorMsg := by
      unfold cli_main
      rw [h]
      rfl
    rw [hm, if_neg ht]

/-- Witness for C9: an existing simple `.mfu` path runs the pipeline. -/
theorem C9_witness :
    ((pySplit '.' "x.mfu").get? 1 = some "mfu")
    ∧ cli_main true "x.mfu" = .runPipeline :=
  ⟨rfl,
    (C9_cli_behavior "x.mfu" "mfu" (fun _ => "")
      ⟨0, 0, 0, "", 0, 0, 0, 0, 0, 0, 0⟩).2.2.1 rfl rfl⟩

/-! ### C10: implicit sample-row arity precondition -/

/-- Claim C10: a sample row must have at least three comma-separated
fields for parsing to succeed: whenever `get_freq_react_data` returns
successfully, every row has length at least 3 (field index 0 is required
even though the fit never uses it); and a row with only two fields —
frequency and reactance without a leading field — fails with an
out-of-range `IndexError` rather than being read as a pair. -/
theorem C10_sample_row_arity (fo : String → Option ℝ) :
    (∀ rows fs xs, get_freq_react_data fo rows = .ok (fs, xs) →
        ∀ row ∈ rows, 3 ≤ row.length)
    ∧ (∀ s1 s2 v, fo s2 = some v →
        get_freq_react_data fo [[s1, s2]] = .error .indexError) := by
  constructor
  · intro rows fs xs h row hrow
    obtain ⟨i, hi⟩ := List.get?_of_mem hrow
    exact ((get_freq_react_data_ok_spec fo rows fs xs h).2.2 i row hi).1
  · intro s1 s2 v hv
    simp only [get_freq_react_data, pyGet, pyFloatE, List.get?, hv,
      except_ok_bind]
    rfl

/-- Witness for C10: a two-field row with a parseable second field fails
with `IndexError`. -/
theorem C10_witness :
    ((fun s => if s = "7" then some (7 : ℝ) else none) "7" = some 7)
    ∧ get_freq_react_data (fun s => if s = "7" then some (7 : ℝ) else none)
        [["f0", "7"]] = .error .indexError :=
  ⟨rfl,
    (C10_sample_row_arity (fun s => if s = "7" then some (7 : ℝ) else none)).2
      "f0" "7" 7 rfl⟩
